import Mathlib

/-!
# Verification of the reactive obstacle-avoidance controller (`mapper.py`)

Shallow embedding of the decision core of `SmartSafeMapper`:

* distances are modelled as exact rationals (`ℚ`); a NaN range sample is
  modelled as `Option.none`, every real sample as `Option.some r`;
* the Python exception raised by `i % num_ranges` when the scan is empty
  (`ZeroDivisionError`) is modelled by `Except.error`;
* the ambient draw `random.random()` performed inside a tick is modelled as
  an explicit rational argument `rand` passed to the tick function;
* publishing a `Twist` is modelled by returning `some cmd`; a tick that
  returns without publishing yields `none`.
-/

/-- FSM states of the controller: the string field `self.state`. -/
inductive RobotState where
  | EXPLORING
  | BACKING_UP
  | TURNING
deriving DecidableEq, Repr

/-- A `sensor_msgs/LaserScan` snapshot as the controller reads it:
the `ranges` array (`none` = NaN sample) and `range_max`. -/
structure LaserScan where
  ranges : List (Option ℚ)
  range_max : ℚ
deriving DecidableEq

/-- A `geometry_msgs/Twist` restricted to the two fields the controller
writes: `linear.x` and `angular.z` (all other fields stay zero). -/
structure Twist where
  linear : ℚ
  angular : ℚ
deriving DecidableEq

/-- The mutable fields of `SmartSafeMapper` that the tick handler reads or
writes: the latest scan slot, the shared phase timer and the FSM state. -/
structure Mapper where
  lidar_data : Option LaserScan
  backup_time : ℚ
  state : RobotState
deriving DecidableEq

/-- `self.safe_distance = 0.7`. -/
def safe_distance : ℚ := 0.7
/-- `self.min_distance = 0.3`. -/
def min_distance : ℚ := 0.3
/-- `self.forward_speed = 0.12`. -/
def forward_speed : ℚ := 0.12
/-- `self.turn_speed = 0.8`. -/
def turn_speed : ℚ := 0.8
/-- `self.backup_speed = -0.1`. -/
def backup_speed : ℚ := -0.1

/-- `list(range(0, 30)) + list(range(330, 360))` — the raw front window. -/
def front_indices_raw : List ℕ := List.range 30 ++ List.range' 330 30

/-- `list(range(60, 120))` — the raw left window. -/
def left_indices_raw : List ℕ := List.range' 60 60

/-- `list(range(240, 300))` — the raw right window. -/
def right_indices_raw : List ℕ := List.range' 240 60

/-- `[i % num_ranges for i in front_indices]`. -/
def front_indices (num_ranges : ℕ) : List ℕ :=
  front_indices_raw.map (· % num_ranges)

/-- `[i % num_ranges for i in left_indices]`. -/
def left_indices (num_ranges : ℕ) : List ℕ :=
  left_indices_raw.map (· % num_ranges)

/-- `[i % num_ranges for i in right_indices]`. -/
def right_indices (num_ranges : ℕ) : List ℕ :=
  right_indices_raw.map (· % num_ranges)

/-- The `valid_ranges` list built inside `get_sector_min`: the samples at
the given indices that are not NaN, are `> 0.1` and are `< range_max`. -/
def valid_ranges (ranges : List (Option ℚ)) (range_max : ℚ)
    (indices : List ℕ) : List ℚ :=
  indices.filterMap (fun idx =>
    if h : idx < ranges.length then
      match ranges.get ⟨idx, h⟩ with
      | none => none
      | some r => if 0.1 < r ∧ r < range_max then some r else none
    else none)

/-- The nested `get_sector_min(indices)` of `get_safe_directions`: the
minimum of the valid samples, or `range_max` if none is valid
(`min(valid_ranges) if valid_ranges else self.lidar_data.range_max`). -/
def get_sector_min (ranges : List (Option ℚ)) (range_max : ℚ)
    (indices : List ℕ) : ℚ :=
  match valid_ranges ranges range_max indices with
  | [] => range_max
  | v :: vs => vs.foldl min v

/-- The sector dictionary returned by `get_safe_directions`. -/
structure Sectors where
  front : ℚ
  left : ℚ
  right : ℚ
  left_better : Bool
  right_better : Bool
  equal : Bool
deriving DecidableEq

/-- The body of `get_safe_directions` once a scan with a nonempty `ranges`
array is at hand: sector minima plus the hysteresis comparison flags. -/
def summarize (ranges : List (Option ℚ)) (range_max : ℚ) : Sectors :=
  let num_ranges := ranges.length
  let front_min := get_sector_min ranges range_max (front_indices num_ranges)
  let left_min := get_sector_min ranges range_max (left_indices num_ranges)
  let right_min := get_sector_min ranges range_max (right_indices num_ranges)
  { front := front_min
    left := left_min
    right := right_min
    left_better := decide (left_min - right_min > 0.3)
    right_better := decide (right_min - left_min > 0.3)
    equal := !(decide (left_min - right_min > 0.3))
               && !(decide (right_min - left_min > 0.3)) }

/-- `get_safe_directions`: `None` when no scan was ever received; a Python
`ZeroDivisionError` (from `i % num_ranges` with `num_ranges == 0`) when the
scan is empty, modelled as `Except.error`; otherwise the sector summary. -/
def get_safe_directions (m : Mapper) : Except String (Option Sectors) :=
  match m.lidar_data with
  | none => .ok none
  | some scan =>
    if scan.ranges.length = 0 then
      .error "ZeroDivisionError"
    else
      .ok (some (summarize scan.ranges scan.range_max))

/-- One invocation of `control_loop`. `rand` is the value the inline
`random.random()` call would return if taken. The result is the updated
mapper together with the published command (`none` when the tick returns
early without publishing); `Except.error` models an escaped exception, in
which case no field of the mapper has been mutated. -/
def control_loop (m : Mapper) (rand : ℚ) : Except String (Mapper × Option Twist) :=
  match m.lidar_data with
  | none => .ok (m, none)
  | some _ =>
    match get_safe_directions m with
    | .error e => .error e
    | .ok none => .ok (m, none)
    | .ok (some sectors) =>
      let front_distance := sectors.front
      match m.state with
      | .EXPLORING =>
        if front_distance < min_distance then
          .ok ({ m with state := .BACKING_UP, backup_time := 0 },
               some { linear := backup_speed, angular := 0 })
        else if front_distance < safe_distance then
          let angular :=
            if sectors.left_better then turn_speed
            else if sectors.right_better then -turn_speed
            else if rand > 0.5 then turn_speed else -turn_speed
          .ok (m, some { linear := forward_speed * 0.3, angular := angular })
        else
          .ok (m, some { linear := forward_speed, angular := 0 })
      | .BACKING_UP =>
        let t := m.backup_time + 0.1
        let st : RobotState := if t ≥ 1.5 then .TURNING else .BACKING_UP
        .ok ({ m with backup_time := t, state := st },
             some { linear := backup_speed, angular := 0 })
      | .TURNING =>
        let t := m.backup_time + 0.1
        let angular :=
          if sectors.left_better then turn_speed
          else if sectors.right_better then -turn_speed
          else if rand > 0.5 then turn_speed else -turn_speed
        let st : RobotState := if t ≥ 3.5 then .EXPLORING else .TURNING
        .ok ({ m with backup_time := t, state := st },
             some { linear := 0, angular := angular })

/-- `lidar_callback` followed by one `control_loop` invocation: store the
delivered scan in the latest-scan slot, then tick. On an escaped exception
the mapper keeps the state it had when the exception was raised (only the
scan slot had been written). -/
def stepMapper (m : Mapper) (scan : LaserScan) (rand : ℚ) : Mapper :=
  let m2 := { m with lidar_data := some scan }
  match control_loop m2 rand with
  | .ok (m3, _) => m3
  | .error _ => m2

/-- The run starting at the instant `BACKING_UP` is entered (timer just
reset to `0`): `backRun scans rands k` is the mapper after `k` ticks, tick
`k` receiving scan `scans k` and random draw `rands k`. -/
def backRun (scans : ℕ → LaserScan) (rands : ℕ → ℚ) : ℕ → Mapper
  | 0 => { lidar_data := some (scans 0), backup_time := 0, state := .BACKING_UP }
  | k + 1 => stepMapper (backRun scans rands k) (scans (k + 1)) (rands (k + 1))

/-- Repeated ticks on one frozen mapper state (the same latest scan reused,
no new scan delivered): `iterate_cl rands m n` is the mapper after `n`
consecutive `control_loop` invocations. -/
def iterate_cl (rands : ℕ → ℚ) (m : Mapper) : ℕ → Mapper
  | 0 => m
  | n + 1 =>
    match control_loop (iterate_cl rands m n) (rands n) with
    | .ok (m2, _) => m2
    | .error _ => iterate_cl rands m n

/-- Modelled from the spec (§4.1): index `i` lies in the front degree window
of an `n`-sample scan, the window `[0°, 30°) ∪ [330°, 360°)` scaled
proportionally to `n` (index `i` covers degree `i * 360 / n`). -/
def spec_front_window (n i : ℕ) : Bool :=
  decide (i * 360 < 30 * n) || decide (330 * n ≤ i * 360)

/-- Modelled from the spec (§4.1): index `i` lies in the left degree window
`[60°, 120°)` scaled proportionally to `n`. -/
def spec_left_window (n i : ℕ) : Bool :=
  decide (60 * n ≤ i * 360) && decide (i * 360 < 120 * n)

/-- Modelled from the spec (§4.1): index `i` lies in the right degree window
`[240°, 300°)` scaled proportionally to `n`. -/
def spec_right_window (n i : ℕ) : Bool :=
  decide (240 * n ≤ i * 360) && decide (i * 360 < 300 * n)

/-- A one-sample scan whose only sample is NaN: every sector is empty, so
every sector minimum degrades to the scan's `range_max`. -/
def nanScan (range_max : ℚ) : LaserScan :=
  { ranges := [none], range_max := range_max }

/-- A mapper holding a `nanScan` in the latest-scan slot. -/
def nanMapper (range_max : ℚ) (t : ℚ) (st : RobotState) : Mapper :=
  { lidar_data := some (nanScan range_max), backup_time := t, state := st }

/-- A scan whose `ranges` array is empty (`num_ranges == 0`). -/
def emptyScan : LaserScan := { ranges := [], range_max := 10 }

/-- Constant scan stream used to instantiate run-level theorems. -/
def demoScans : ℕ → LaserScan := fun _ => nanScan 10

/-- Constant random-draw stream used to instantiate run-level theorems. -/
def demoRands : ℕ → ℚ := fun _ => 0

/-- A mapper that has never received a scan. -/
def m_none : Mapper := { lidar_data := none, backup_time := 0, state := .EXPLORING }

/-- A mapper holding the empty scan in the latest-scan slot. -/
def emptyMapper (st : RobotState) : Mapper :=
  { lidar_data := some emptyScan, backup_time := 0, state := st }

/-- Folding `min` over a list starting from `v` lands on `v` or on one of
the list's elements. -/
lemma foldl_min_mem (vs : List ℚ) (v : ℚ) : vs.foldl min v ∈ v :: vs := by
  induction vs generalizing v with
  | nil => simp
  | cons w t ih =>
    have h := ih (min v w)
    simp only [List.foldl_cons]
    rcases List.mem_cons.mp h with h1 | h1
    · rw [h1]
      rcases min_choice v w with hc | hc
      · rw [hc]; exact List.mem_cons_self _ _
      · rw [hc]; exact List.mem_cons.mpr (Or.inr (List.mem_cons_self _ _))
    · exact List.mem_cons.mpr (Or.inr (List.mem_cons.mpr (Or.inr h1)))

/-- Every sample the filter keeps is above the noise floor and below
`range_max`. -/
lemma valid_ranges_mem {ranges : List (Option ℚ)} {range_max : ℚ}
    {indices : List ℕ} {x : ℚ} (hx : x ∈ valid_ranges ranges range_max indices) :
    0.1 < x ∧ x < range_max := by
  rcases List.mem_filterMap.mp hx with ⟨idx, _, hidx⟩
  by_cases h : idx < ranges.length
  · simp only [dif_pos h] at hidx
    rcases hget : ranges.get ⟨idx, h⟩ with _ | r
    · rw [hget] at hidx; simp at hidx
    · rw [hget] at hidx
      by_cases hr : 0.1 < r ∧ r < range_max
      · simp only [if_pos hr, Option.some_inj] at hidx
        exact hidx ▸ hr
      · simp [if_neg hr] at hidx
  · simp [dif_neg h] at hidx

/-- A sector minimum is `range_max` (empty sector) or the minimum of the
valid samples, hence strictly inside `(0.1, range_max)`. -/
lemma get_sector_min_cases (ranges : List (Option ℚ)) (range_max : ℚ)
    (indices : List ℕ) :
    get_sector_min ranges range_max indices = range_max ∨
      (0.1 < get_sector_min ranges range_max indices ∧
       get_sector_min ranges range_max indices < range_max) := by
  unfold get_sector_min
  rcases hv : valid_ranges ranges range_max indices with _ | ⟨v, vs⟩
  · exact Or.inl rfl
  · right
    have hmem := foldl_min_mem vs v
    have hsub : ∀ x ∈ v :: vs, 0.1 < x ∧ x < range_max := by
      intro x hx
      exact valid_ranges_mem (hv ▸ hx)
    exact hsub _ hmem

/-- On the all-NaN one-sample scan every index filters to nothing. -/
lemma valid_ranges_nan (range_max : ℚ) (indices : List ℕ) :
    valid_ranges [none] range_max indices = [] := by
  rw [valid_ranges, List.filterMap_eq_nil_iff]
  intro idx _
  by_cases h : idx < ([none] : List (Option ℚ)).length
  · have h0 : idx = 0 := by simpa using h
    subst h0
    simp
  · simp [dif_neg h]

/-- On the all-NaN one-sample scan every sector degrades to `range_max`. -/
lemma get_sector_min_nan (range_max : ℚ) (indices : List ℕ) :
    get_sector_min [none] range_max indices = range_max := by
  rw [get_sector_min, valid_ranges_nan]

/-- The sector summary of the all-NaN one-sample scan: all three minima are
`range_max` and the tie flags report equal space. -/
lemma summarize_nan (range_max : ℚ) :
    summarize [none] range_max =
      { front := range_max, left := range_max, right := range_max,
        left_better := false, right_better := false, equal := true } := by
  simp [summarize, get_sector_min_nan]
  norm_num

/-- Inversion of a successful `get_safe_directions`: the mapper held a
nonempty scan and the summary is `summarize` of that scan. -/
lemma gsd_inv {m : Mapper} {s : Sectors}
    (hs : get_safe_directions m = .ok (some s)) :
    ∃ scan, m.lidar_data = some scan ∧ scan.ranges.length ≠ 0 ∧
      s = summarize scan.ranges scan.range_max := by
  rcases hld : m.lidar_data with _ | scan
  · simp [get_safe_directions, hld] at hs
  · by_cases hn : scan.ranges.length = 0
    · simp [get_safe_directions, hld, hn] at hs
    · simp only [get_safe_directions, hld, if_neg hn, Except.ok.injEq,
        Option.some_inj] at hs
      exact ⟨scan, rfl, hn, hs.symm⟩

/-- A mapper holding a nonempty scan gets its sector summary from
`summarize`. -/
lemma gsd_of_scan {m : Mapper} {scan : LaserScan}
    (hl : m.lidar_data = some scan) (hn : scan.ranges.length ≠ 0) :
    get_safe_directions m = .ok (some (summarize scan.ranges scan.range_max)) := by
  simp [get_safe_directions, hl, hn]

/-- The summary a successful `get_safe_directions` hands to the FSM carries
exactly the hysteresis flags computed from its own sector minima. -/
lemma summary_flags {m : Mapper} {s : Sectors}
    (hs : get_safe_directions m = .ok (some s)) :
    s.left_better = decide (s.left - s.right > 0.3) ∧
    s.right_better = decide (s.right - s.left > 0.3) ∧
    s.equal = (!s.left_better && !s.right_better) := by
  obtain ⟨scan, _, _, hsum⟩ := gsd_inv hs
  subst hsum
  refine ⟨?_, ?_, ?_⟩ <;> simp [summarize]

/-- Tick in `EXPLORING` with `front < min_distance`: issue the backup
command, reset the timer, move to `BACKING_UP`. -/
lemma cl_explore_danger {m : Mapper} {scan : LaserScan} {s : Sectors} (r : ℚ)
    (hl : m.lidar_data = some scan)
    (hs : get_safe_directions m = .ok (some s))
    (hst : m.state = RobotState.EXPLORING)
    (hf : s.front < min_distance) :
    control_loop m r =
      .ok ({ m with state := RobotState.BACKING_UP, backup_time := 0 },
           some { linear := backup_speed, angular := 0 }) := by
  simp [control_loop, hl, hs, hst, hf]

/-- Tick in `EXPLORING` with `min_distance ≤ front < safe_distance`: slow
forward drive and the turn direction picked by the inline policy. -/
lemma cl_explore_steer {m : Mapper} {scan : LaserScan} {s : Sectors} (r : ℚ)
    (hl : m.lidar_data = some scan)
    (hs : get_safe_directions m = .ok (some s))
    (hst : m.state = RobotState.EXPLORING)
    (h1 : ¬ s.front < min_distance) (h2 : s.front < safe_distance) :
    control_loop m r =
      .ok (m, some { linear := forward_speed * 0.3,
                     angular := if s.left_better then turn_speed
                                else if s.right_better then -turn_speed
                                else if r > 0.5 then turn_speed
                                else -turn_speed }) := by
  simp [control_loop, hl, hs, hst, h1, h2]

/-- Tick in `EXPLORING` with `front ≥ safe_distance`: straight drive,
nothing mutated. -/
lemma cl_explore_straight {m : Mapper} {scan : LaserScan} {s : Sectors} (r : ℚ)
    (hl : m.lidar_data = some scan)
    (hs : get_safe_directions m = .ok (some s))
    (hst : m.state = RobotState.EXPLORING)
    (h1 : ¬ s.front < min_distance) (h2 : ¬ s.front < safe_distance) :
    control_loop m r = .ok (m, some { linear := forward_speed, angular := 0 }) := by
  simp [control_loop, hl, hs, hst, h1, h2]

/-- Tick in `BACKING_UP`: advance the shared timer, emit the backup
command, hand over to `TURNING` once the timer reaches `1.5`. -/
lemma cl_backing {m : Mapper} {scan : LaserScan} (r : ℚ)
    (hl : m.lidar_data = some scan) (hn : scan.ranges.length ≠ 0)
    (hst : m.state = RobotState.BACKING_UP) :
    control_loop m r =
      .ok ({ m with
              backup_time := m.backup_time + 0.1,
              state := if m.backup_time + 0.1 ≥ 1.5 then RobotState.TURNING
                       else RobotState.BACKING_UP },
           some { linear := backup_speed, angular := 0 }) := by
  simp [control_loop, get_safe_directions, hl, hn, hst]

/-- Tick in `TURNING`: advance the shared timer, spin with some turn rate,
return to `EXPLORING` once the timer reaches `3.5`. -/
lemma cl_turning {m : Mapper} {scan : LaserScan} (r : ℚ)
    (hl : m.lidar_data = some scan) (hn : scan.ranges.length ≠ 0)
    (hst : m.state = RobotState.TURNING) :
    control_loop m r =
      .ok ({ m with
              backup_time := m.backup_time + 0.1,
              state := if m.backup_time + 0.1 ≥ 3.5 then RobotState.EXPLORING
                       else RobotState.TURNING },
           some { linear := 0,
                  angular :=
                    if (summarize scan.ranges scan.range_max).left_better then
                      turn_speed
                    else if (summarize scan.ranges scan.range_max).right_better then
                      -turn_speed
                    else if r > 0.5 then turn_speed
                    else -turn_speed }) := by
  simp [control_loop, get_safe_directions, hl, hn, hst]

/-- Scan delivery followed by a `BACKING_UP` tick, at the mapper level. -/
lemma stepMapper_backing (m : Mapper) (scan : LaserScan) (r : ℚ)
    (hn : scan.ranges.length ≠ 0) (hst : m.state = RobotState.BACKING_UP) :
    stepMapper m scan r =
      { lidar_data := some scan,
        backup_time := m.backup_time + 0.1,
        state := if m.backup_time + 0.1 ≥ 1.5 then RobotState.TURNING
                 else RobotState.BACKING_UP } := by
  rw [stepMapper]
  rw [cl_backing r (m := { m with lidar_data := some scan }) rfl hn hst]

/-- Scan delivery followed by a `TURNING` tick, at the mapper level. -/
lemma stepMapper_turning (m : Mapper) (scan : LaserScan) (r : ℚ)
    (hn : scan.ranges.length ≠ 0) (hst : m.state = RobotState.TURNING) :
    stepMapper m scan r =
      { lidar_data := some scan,
        backup_time := m.backup_time + 0.1,
        state := if m.backup_time + 0.1 ≥ 3.5 then RobotState.EXPLORING
                 else RobotState.TURNING } := by
  rw [stepMapper]
  rw [cl_turning r (m := { m with lidar_data := some scan }) rfl hn hst]

/-- The sector summary a `nanMapper` produces: everything `range_max`,
equal space on both sides. -/
lemma gsd_nan (range_max t : ℚ) (st : RobotState) :
    get_safe_directions (nanMapper range_max t st) =
      .ok (some { front := range_max, left := range_max, right := range_max,
                  left_better := false, right_better := false, equal := true }) := by
  rw [gsd_of_scan
    (rfl : (nanMapper range_max t st).lidar_data = some (nanScan range_max))
    (by simp [nanScan])]
  simp [nanScan, summarize_nan]

/-- Crossing the backup cutoff: the accumulated timer reaches `1.5` on the
tick numbered `k + 1` exactly when `14 ≤ k`. -/
lemma backup_cutoff_iff (k : ℕ) : ((k : ℚ) * 0.1 + 0.1 ≥ 1.5) ↔ 14 ≤ k := by
  constructor
  · intro h
    have hq : (14 : ℚ) ≤ (k : ℚ) := by linarith
    exact_mod_cast hq
  · intro h
    have hq : (14 : ℚ) ≤ (k : ℚ) := by exact_mod_cast h
    linarith

/-- Crossing the turning cutoff: the accumulated timer reaches `3.5` on the
tick numbered `k + 1` exactly when `34 ≤ k`. -/
lemma turning_cutoff_iff (k : ℕ) : ((k : ℚ) * 0.1 + 0.1 ≥ 3.5) ↔ 34 ≤ k := by
  constructor
  · intro h
    have hq : (34 : ℚ) ≤ (k : ℚ) := by linarith
    exact_mod_cast hq
  · intro h
    have hq : (34 : ℚ) ≤ (k : ℚ) := by exact_mod_cast h
    linarith

/-- Timing invariant of the backup/turning run: after `k ≤ 35` ticks the
shared timer reads `k * 0.1`; the state is `BACKING_UP` for the first 15
ticks, `TURNING` up to tick 35, `EXPLORING` at tick 35. -/
lemma backRun_invariant (scans : ℕ → LaserScan) (rands : ℕ → ℚ)
    (h : ∀ k, (scans k).ranges.length ≠ 0) :
    ∀ k, k ≤ 35 →
      (backRun scans rands k).backup_time = (k : ℚ) * 0.1 ∧
      (backRun scans rands k).state =
        (if k < 15 then RobotState.BACKING_UP
         else if k < 35 then RobotState.TURNING
         else RobotState.EXPLORING) := by
  intro k
  induction k with
  | zero => intro _; simp [backRun]
  | succ k ih =>
    intro hk35
    obtain ⟨iht, ihs⟩ := ih (by omega)
    rw [backRun]
    by_cases h15 : k < 15
    · have hst : (backRun scans rands k).state = RobotState.BACKING_UP := by
        rw [ihs, if_pos h15]
      rw [stepMapper_backing _ _ _ (h (k + 1)) hst, iht]
      constructor
      · push_cast; ring
      · by_cases h14 : 14 ≤ k
        · have hcut := (backup_cutoff_iff k).mpr h14
          rw [if_pos hcut]
          have : ¬ k + 1 < 15 := by omega
          rw [if_neg this, if_pos (by omega : k + 1 < 35)]
        · have hcut : ¬ ((k : ℚ) * 0.1 + 0.1 ≥ 1.5) := fun hc =>
            h14 ((backup_cutoff_iff k).mp hc)
          rw [if_neg hcut, if_pos (by omega : k + 1 < 15)]
    · have hst : (backRun scans rands k).state = RobotState.TURNING := by
        rw [ihs, if_neg h15, if_pos (by omega : k < 35)]
      rw [stepMapper_turning _ _ _ (h (k + 1)) hst, iht]
      constructor
      · push_cast; ring
      · by_cases h34 : 34 ≤ k
        · have hcut := (turning_cutoff_iff k).mpr h34
          rw [if_pos hcut]
          have h1 : ¬ k + 1 < 15 := by omega
          have h2 : ¬ k + 1 < 35 := by omega
          rw [if_neg h1, if_neg h2]
        · have hcut : ¬ ((k : ℚ) * 0.1 + 0.1 ≥ 3.5) := fun hc =>
            h34 ((turning_cutoff_iff k).mp hc)
          rw [if_neg hcut]
          have h1 : ¬ k + 1 < 15 := by omega
          rw [if_neg h1, if_pos (by omega : k + 1 < 35)]

set_option maxRecDepth 10000

/-- C1, counterexample. The claim says the sector index sets scale the
degree windows proportionally to `N`, making `N = 360` and `N = 720`
geometrically equivalent. The code instead hardcodes the 360-based index
lists and only reduces them `mod N`: for `N = 720`, index `330` (which
covers 165°, far outside the front ±30° window) is in the code's front
sector, and the code's front set differs from the proportionally scaled
window. -/
theorem C1_counterexample :
    330 ∈ front_indices 720 ∧
    spec_front_window 720 330 = false ∧
    front_indices 720 ≠
      (List.range 720).filter (fun i => spec_front_window 720 i) := by
  refine ⟨by decide, by decide, ?_⟩
  decide

/-- C1, amended. The sector index sets are the fixed degree-based index
lists of a 360-sample scan (`{0..29} ∪ {330..359}` front, `{60..119}`
left, `{240..299}` right) reduced `mod N`: every produced index wraps
into `[0, N)` for any `N ≥ 1`, and for `N = 360` (one sample per degree)
the three sets coincide with the degree windows; no proportional scaling
to other `N` takes place. -/
theorem C1_amended :
    (∀ n : ℕ,
      ((front_indices (n + 1) ++ left_indices (n + 1) ++
        right_indices (n + 1)).all (fun i => decide (i < n + 1))) = true) ∧
    front_indices 360 = (List.range 360).filter (fun i => spec_front_window 360 i) ∧
    left_indices 360 = (List.range 360).filter (fun i => spec_left_window 360 i) ∧
    right_indices 360 = (List.range 360).filter (fun i => spec_right_window 360 i) := by
  refine ⟨?_, by decide, by decide, by decide⟩
  intro n
  rw [List.all_eq_true]
  intro i hi
  simp only [List.append_assoc, List.mem_append, front_indices, left_indices,
    right_indices, List.mem_map] at hi
  rw [decide_eq_true_iff]
  rcases hi with ⟨j, _, hj⟩ | ⟨j, _, hj⟩ | ⟨j, _, hj⟩ <;>
    exact hj ▸ Nat.mod_lt j (Nat.succ_pos n)

/-- C2. Starting at the instant `BACKING_UP` is entered (timer reset to 0)
and ticking every 0.1 s, the run spends exactly 15 ticks in `BACKING_UP`
(ticks 0–14 start there, tick 15 starts in `TURNING`), the timer is not
reset at the `BACKING_UP → TURNING` boundary (it reads `1.5` there), and
the cumulative count from backup entry through the `TURNING → EXPLORING`
transition is exactly 35 ticks. -/
theorem C2_tick_counts (scans : ℕ → LaserScan) (rands : ℕ → ℚ)
    (h : ∀ k, (scans k).ranges.length ≠ 0) :
    (∀ k, k < 15 → (backRun scans rands k).state = RobotState.BACKING_UP) ∧
    (backRun scans rands 15).state = RobotState.TURNING ∧
    (backRun scans rands 15).backup_time = 1.5 ∧
    (∀ k, 15 ≤ k → k < 35 → (backRun scans rands k).state = RobotState.TURNING) ∧
    (backRun scans rands 35).state = RobotState.EXPLORING := by
  have inv := backRun_invariant scans rands h
  refine ⟨?_, ?_, ?_, ?_, ?_⟩
  · intro k hk
    rw [(inv k (by omega)).2, if_pos hk]
  · rw [(inv 15 (by omega)).2]
    norm_num
  · rw [(inv 15 (by omega)).1]
    norm_num
  · intro k h15 h35
    rw [(inv k (by omega)).2, if_neg (by omega), if_pos h35]
  · rw [(inv 35 (by omega)).2]
    norm_num

/-- C2, witness: the tick-count theorem instantiated on the constant
all-NaN scan stream. -/
theorem C2_tick_counts_witness :
    (∀ k, (demoScans k).ranges.length ≠ 0) ∧
    ((∀ k, k < 15 → (backRun demoScans demoRands k).state = RobotState.BACKING_UP) ∧
     (backRun demoScans demoRands 15).state = RobotState.TURNING ∧
     (backRun demoScans demoRands 15).backup_time = 1.5 ∧
     (∀ k, 15 ≤ k → k < 35 →
        (backRun demoScans demoRands k).state = RobotState.TURNING) ∧
     (backRun demoScans demoRands 35).state = RobotState.EXPLORING) :=
  ⟨fun _ => by simp [demoScans, nanScan],
   C2_tick_counts demoScans demoRands (fun _ => by simp [demoScans, nanScan])⟩

/-- C3. On an `EXPLORING` tick with a received scan: `front < 0.3` emits
the backup command `{linear = -0.1, angular = 0}` on that same tick and
switches to `BACKING_UP` with the timer reset to 0; `0.3 ≤ front < 0.7`
emits `{linear = 0.12 * 0.3, angular = ±0.8}` with the sign picked by the
turn-direction policy and stays in `EXPLORING`; `front ≥ 0.7` emits
`{linear = 0.12, angular = 0}` and stays in `EXPLORING`. -/
theorem C3_exploring_commands (m : Mapper) (scan : LaserScan) (s : Sectors)
    (r : ℚ)
    (hl : m.lidar_data = some scan)
    (hs : get_safe_directions m = .ok (some s))
    (hst : m.state = RobotState.EXPLORING) :
    (s.front < 0.3 →
      control_loop m r =
        .ok ({ m with state := RobotState.BACKING_UP, backup_time := 0 },
             some { linear := -0.1, angular := 0 })) ∧
    (0.3 ≤ s.front → s.front < 0.7 →
      ∃ sign : ℚ, (sign = 1 ∨ sign = -1) ∧
        sign = (if s.left_better then (1 : ℚ)
                else if s.right_better then -1
                else if r > 0.5 then 1 else -1) ∧
        control_loop m r =
          .ok (m, some { linear := 0.12 * 0.3, angular := 0.8 * sign })) ∧
    (0.7 ≤ s.front →
      control_loop m r = .ok (m, some { linear := 0.12, angular := 0 })) := by
  refine ⟨?_, ?_, ?_⟩
  · intro hf
    rw [cl_explore_danger r hl hs hst (by rw [min_distance]; exact hf)]
    norm_num [backup_speed]
  · intro h1 h2
    refine ⟨(if s.left_better then (1 : ℚ) else if s.right_better then -1
             else if r > 0.5 then 1 else -1), ?_, rfl, ?_⟩
    · split_ifs <;> simp
    · rw [cl_explore_steer r hl hs hst
        (by rw [min_distance]; exact not_lt.mpr h1)
        (by rw [safe_distance]; exact h2)]
      have hlin : forward_speed * 0.3 = (0.12 : ℚ) * 0.3 := by
        norm_num [forward_speed]
      have hang :
          (if s.left_better then turn_speed
           else if s.right_better then -turn_speed
           else if r > 0.5 then turn_speed else -turn_speed) =
            0.8 * (if s.left_better then (1 : ℚ)
                   else if s.right_better then -1
                   else if r > 0.5 then 1 else -1) := by
        split_ifs <;> norm_num [turn_speed]
      rw [hlin, hang]
  · intro hf
    rw [cl_explore_straight r hl hs hst
      (by rw [min_distance]; intro hc; linarith)
      (by rw [safe_distance]; exact not_lt.mpr hf)]
    norm_num [forward_speed]

/-- C3, witness: a one-sample NaN scan with `range_max = 0.2` makes every
sector default to `0.2 < 0.3`, so the danger branch fires. -/
theorem C3_exploring_commands_witness :
    (nanMapper 0.2 0 RobotState.EXPLORING).lidar_data = some (nanScan 0.2) ∧
    get_safe_directions (nanMapper 0.2 0 RobotState.EXPLORING) =
      .ok (some { front := 0.2, left := 0.2, right := 0.2,
                  left_better := false, right_better := false, equal := true }) ∧
    ((0.2 : ℚ) < 0.3) ∧
    control_loop (nanMapper 0.2 0 RobotState.EXPLORING) 0 =
      .ok ({ nanMapper 0.2 0 RobotState.EXPLORING with
              state := RobotState.BACKING_UP, backup_time := 0 },
           some { linear := -0.1, angular := 0 }) := by
  refine ⟨rfl, gsd_nan 0.2 0 RobotState.EXPLORING, by norm_num, ?_⟩
  exact (C3_exploring_commands (nanMapper 0.2 0 RobotState.EXPLORING)
    (nanScan 0.2) _ 0 rfl (gsd_nan 0.2 0 RobotState.EXPLORING) rfl).1
    (by norm_num)

/-- C4. Every sector summary handed to the FSM has exactly one of
`left_better`, `right_better`, `equal` set; `equal` holds iff
`|left_min - right_min| ≤ 0.3`, `left_better` iff `left - right > 0.3`,
`right_better` iff `right - left > 0.3`. -/
theorem C4_flag_invariant (m : Mapper) (s : Sectors)
    (hs : get_safe_directions m = .ok (some s)) :
    ((s.left_better = true ∧ s.right_better = false ∧ s.equal = false) ∨
     (s.left_better = false ∧ s.right_better = true ∧ s.equal = false) ∨
     (s.left_better = false ∧ s.right_better = false ∧ s.equal = true)) ∧
    (s.equal = true ↔ |s.left - s.right| ≤ 0.3) ∧
    (s.left_better = true ↔ s.left - s.right > 0.3) ∧
    (s.right_better = true ↔ s.right - s.left > 0.3) := by
  obtain ⟨hlb, hrb, heq⟩ := summary_flags hs
  refine ⟨?_, ?_, ?_, ?_⟩
  · by_cases hL : s.left - s.right > 0.3
    · have hR : ¬ s.right - s.left > 0.3 := by intro hR; linarith
      left
      rw [heq, hlb, hrb]
      simp [hL, hR]
    · by_cases hR : s.right - s.left > 0.3
      · right; left
        rw [heq, hlb, hrb]
        simp [hL, hR]
      · right; right
        rw [heq, hlb, hrb]
        simp [hL, hR]
  · rw [heq, hlb, hrb]
    simp only [Bool.and_eq_true, Bool.not_eq_true', decide_eq_false_iff_not,
      not_lt, abs_sub_le_iff]
  · rw [hlb]; simp
  · rw [hrb]; simp

/-- C4, witness: the flag invariant at the all-NaN demo scan, whose summary
has both sides equal. -/
theorem C4_flag_invariant_witness :
    get_safe_directions (nanMapper 10 0 RobotState.EXPLORING) =
      .ok (some { front := 10, left := 10, right := 10,
                  left_better := false, right_better := false, equal := true }) ∧
    (({ front := 10, left := 10, right := 10, left_better := false,
        right_better := false, equal := true } : Sectors).equal = true ↔
      |({ front := 10, left := 10, right := 10, left_better := false,
          right_better := false, equal := true } : Sectors).left -
        ({ front := 10, left := 10, right := 10, left_better := false,
           right_better := false, equal := true } : Sectors).right| ≤ 0.3) :=
  ⟨gsd_nan 10 0 RobotState.EXPLORING,
   (C4_flag_invariant (nanMapper 10 0 RobotState.EXPLORING) _
      (gsd_nan 10 0 RobotState.EXPLORING)).2.1⟩

/-- C5. Every sector minimum of a summary handed to the FSM is either
exactly the scan's `range_max` (empty sector) or lies strictly inside
`(0.1, range_max)`. -/
theorem C5_sector_minima_range (m : Mapper) (scan : LaserScan) (s : Sectors)
    (hl : m.lidar_data = some scan)
    (hs : get_safe_directions m = .ok (some s)) :
    (s.front = scan.range_max ∨ (0.1 < s.front ∧ s.front < scan.range_max)) ∧
    (s.left = scan.range_max ∨ (0.1 < s.left ∧ s.left < scan.range_max)) ∧
    (s.right = scan.range_max ∨ (0.1 < s.right ∧ s.right < scan.range_max)) := by
  obtain ⟨scan2, hl2, hn2, hsum⟩ := gsd_inv hs
  rw [hl] at hl2
  have hscan : scan = scan2 := by injection hl2
  subst hscan
  subst hsum
  refine ⟨?_, ?_, ?_⟩ <;> simp only [summarize] <;>
    exact get_sector_min_cases _ _ _

/-- C5, witness: on the all-NaN demo scan all three minima are exactly
`range_max = 10`. -/
theorem C5_sector_minima_range_witness :
    (nanMapper 10 0 RobotState.EXPLORING).lidar_data = some (nanScan 10) ∧
    get_safe_directions (nanMapper 10 0 RobotState.EXPLORING) =
      .ok (some { front := 10, left := 10, right := 10,
                  left_better := false, right_better := false, equal := true }) ∧
    (({ front := 10, left := 10, right := 10, left_better := false,
        right_better := false, equal := true } : Sectors).front =
        (nanScan 10).range_max ∨
      (0.1 < ({ front := 10, left := 10, right := 10, left_better := false,
                right_better := false, equal := true } : Sectors).front ∧
       ({ front := 10, left := 10, right := 10, left_better := false,
          right_better := false, equal := true } : Sectors).front <
         (nanScan 10).range_max)) :=
  ⟨rfl, gsd_nan 10 0 RobotState.EXPLORING,
   (C5_sector_minima_range (nanMapper 10 0 RobotState.EXPLORING) (nanScan 10) _
      rfl (gsd_nan 10 0 RobotState.EXPLORING)).1⟩

/-- C6. If no scan has ever been received, the tick is a no-op: no command
is published and neither the FSM state nor the phase timer changes. -/
theorem C6_no_scan_noop (m : Mapper) (r : ℚ) (h : m.lidar_data = none) :
    control_loop m r = .ok (m, none) := by
  simp [control_loop, h]

/-- C6, witness: the no-op tick on the never-received-a-scan mapper. -/
theorem C6_no_scan_noop_witness :
    m_none.lidar_data = none ∧ control_loop m_none 0 = .ok (m_none, none) :=
  ⟨rfl, C6_no_scan_noop m_none 0 rfl⟩

/-- C7, counterexample. The claim says the tick handler never raises for
any scan, including `N = 0`. On an empty scan, `i % num_ranges` divides by
zero (a Python `ZeroDivisionError`) before any sector default can apply,
and the exception escapes `control_loop` to its caller. -/
theorem C7_counterexample :
    control_loop (emptyMapper RobotState.EXPLORING) 0 =
      .error "ZeroDivisionError" := by
  simp [control_loop, get_safe_directions, emptyMapper, emptyScan]

/-- C7, amended. For every mapper whose latest scan (if any) has at least
one sample — samples may still be NaN, non-positive or at/above
`range_max`, and sectors may be entirely invalid — the tick handler
totally evaluates without raising, degrading to the `range_max` default
per sector or to a no-op tick. -/
theorem C7_total_on_nonempty (m : Mapper) (r : ℚ)
    (h : ∀ scan, m.lidar_data = some scan → scan.ranges.length ≠ 0) :
    ∃ out, control_loop m r = .ok out := by
  rcases hld : m.lidar_data with _ | scan
  · exact ⟨(m, none), by simp [control_loop, hld]⟩
  · have hn := h scan hld
    have hs := gsd_of_scan hld hn
    rcases hstate : m.state with _ | _ | _
    · by_cases hf1 : (summarize scan.ranges scan.range_max).front < min_distance
      · exact ⟨_, cl_explore_danger r hld hs hstate hf1⟩
      · by_cases hf2 : (summarize scan.ranges scan.range_max).front < safe_distance
        · exact ⟨_, cl_explore_steer r hld hs hstate hf1 hf2⟩
        · exact ⟨_, cl_explore_straight r hld hs hstate hf1 hf2⟩
    · exact ⟨_, cl_backing r hld hn hstate⟩
    · exact ⟨_, cl_turning r hld hn hstate⟩

/-- C7, witness: the amended totality theorem at the one-sample NaN scan
(all samples invalid, every sector empty). -/
theorem C7_total_on_nonempty_witness :
    (∀ scan, (nanMapper 10 0 RobotState.EXPLORING).lidar_data = some scan →
      scan.ranges.length ≠ 0) ∧
    ∃ out, control_loop (nanMapper 10 0 RobotState.EXPLORING) 0 = .ok out := by
  have h : ∀ scan, (nanMapper 10 0 RobotState.EXPLORING).lidar_data = some scan →
      scan.ranges.length ≠ 0 := by
    intro scan hsc
    have : nanScan 10 = scan := by injection hsc
    rw [← this]
    simp [nanScan]
  exact ⟨h, C7_total_on_nonempty (nanMapper 10 0 RobotState.EXPLORING) 0 h⟩

/-- C8. On a steering tick whose summary reports equal space, the turn
sign is a function of the injected random draw alone: the command is
`{linear = 0.12 * 0.3, angular = +0.8}` when the draw reads left
(`rand > 0.5`) and `{…, angular = -0.8}` otherwise; in particular a fixed
left-reading source deterministically yields `+0.8 = +turn_speed`. -/
theorem C8_tie_break (m : Mapper) (scan : LaserScan) (s : Sectors) (r : ℚ)
    (hl : m.lidar_data = some scan)
    (hs : get_safe_directions m = .ok (some s))
    (hst : m.state = RobotState.EXPLORING)
    (heq : s.equal = true)
    (h1 : 0.3 ≤ s.front) (h2 : s.front < 0.7) :
    control_loop m r =
      .ok (m, some { linear := 0.12 * 0.3,
                     angular := if r > 0.5 then (0.8 : ℚ) else -0.8 }) ∧
    (r > 0.5 →
      control_loop m r =
        .ok (m, some { linear := 0.12 * 0.3, angular := 0.8 })) := by
  obtain ⟨hlb, hrb, heqd⟩ := summary_flags hs
  rw [heqd, Bool.and_eq_true, Bool.not_eq_true', Bool.not_eq_true'] at heq
  obtain ⟨hlbf, hrbf⟩ := heq
  have hcl := cl_explore_steer r hl hs hst
    (by rw [min_distance]; exact not_lt.mpr h1)
    (by rw [safe_distance]; exact h2)
  rw [hlbf, hrbf] at hcl
  simp only [Bool.false_eq_true, if_false] at hcl
  constructor
  · rw [hcl]
    split_ifs <;> simp [forward_speed, turn_speed]
  · intro hr
    rw [hcl]
    simp [hr, forward_speed, turn_speed]

/-- C8, witness: a NaN scan with `range_max = 0.5` gives an equal-space
summary with `front = 0.5` in the steering band; the draw `0.6 > 0.5`
deterministically turns left with `angular = +0.8`. -/
theorem C8_tie_break_witness :
    (nanMapper 0.5 0 RobotState.EXPLORING).lidar_data = some (nanScan 0.5) ∧
    get_safe_directions (nanMapper 0.5 0 RobotState.EXPLORING) =
      .ok (some { front := 0.5, left := 0.5, right := 0.5,
                  left_better := false, right_better := false, equal := true }) ∧
    ((0.3 : ℚ) ≤ 0.5) ∧ ((0.5 : ℚ) < 0.7) ∧ ((0.6 : ℚ) > 0.5) ∧
    control_loop (nanMapper 0.5 0 RobotState.EXPLORING) 0.6 =
      .ok (nanMapper 0.5 0 RobotState.EXPLORING,
           some { linear := 0.12 * 0.3, angular := 0.8 }) := by
  refine ⟨rfl, gsd_nan 0.5 0 RobotState.EXPLORING, by norm_num, by norm_num,
    by norm_num, ?_⟩
  exact (C8_tie_break (nanMapper 0.5 0 RobotState.EXPLORING) (nanScan 0.5) _
    0.6 rfl (gsd_nan 0.5 0 RobotState.EXPLORING) rfl rfl (by norm_num)
    (by norm_num)).2 (by norm_num)

/-- C9. While `EXPLORING` with `front ≥ 0.7` on the held scan, repeated
ticks on that same scan all emit the identical straight-drive command
`{linear = 0.12, angular = 0}` and leave the mapper — state, phase timer
and scan slot — completely unchanged. -/
theorem C9_idempotent_straight_drive (m : Mapper) (scan : LaserScan)
    (s : Sectors) (rands : ℕ → ℚ)
    (hl : m.lidar_data = some scan)
    (hs : get_safe_directions m = .ok (some s))
    (hst : m.state = RobotState.EXPLORING)
    (hf : 0.7 ≤ s.front) :
    (∀ n, iterate_cl rands m n = m) ∧
    (∀ n, control_loop (iterate_cl rands m n) (rands n) =
        .ok (m, some { linear := 0.12, angular := 0 })) := by
  have hstep : ∀ r, control_loop m r =
      .ok (m, some { linear := (0.12 : ℚ), angular := 0 }) := by
    intro r
    rw [cl_explore_straight r hl hs hst
      (by rw [min_distance]; intro hc; linarith)
      (by rw [safe_distance]; exact not_lt.mpr hf)]
    norm_num [forward_speed]
  have hiter : ∀ n, iterate_cl rands m n = m := by
    intro n
    induction n with
    | zero => rfl
    | succ n ih =>
      rw [iterate_cl, ih, hstep (rands n)]
  exact ⟨hiter, fun n => by rw [hiter n]; exact hstep (rands n)⟩

/-- C9, witness: repeated ticks on the all-NaN scan with `range_max = 1`
(front defaults to `1 ≥ 0.7`). -/
theorem C9_idempotent_straight_drive_witness :
    (nanMapper 1 0 RobotState.EXPLORING).lidar_data = some (nanScan 1) ∧
    get_safe_directions (nanMapper 1 0 RobotState.EXPLORING) =
      .ok (some { front := 1, left := 1, right := 1,
                  left_better := false, right_better := false, equal := true }) ∧
    ((0.7 : ℚ) ≤ 1) ∧
    (∀ n, iterate_cl demoRands (nanMapper 1 0 RobotState.EXPLORING) n =
      nanMapper 1 0 RobotState.EXPLORING) ∧
    (∀ n, control_loop
        (iterate_cl demoRands (nanMapper 1 0 RobotState.EXPLORING) n)
        (demoRands n) =
      .ok (nanMapper 1 0 RobotState.EXPLORING,
           some { linear := 0.12, angular := 0 })) := by
  have hthm := C9_idempotent_straight_drive (nanMapper 1 0 RobotState.EXPLORING)
    (nanScan 1) _ demoRands rfl (gsd_nan 1 0 RobotState.EXPLORING) rfl
    (by norm_num)
  exact ⟨rfl, gsd_nan 1 0 RobotState.EXPLORING, by norm_num, hthm.1, hthm.2⟩

/-- C10, counterexample. The claim quantifies over all received scans; but
with an empty scan the `BACKING_UP` tick raises (no command at all), while
with a nonempty scan it emits the backup command — so two `BACKING_UP`
ticks with equal timers and different scans need not both emit the same
command. -/
theorem C10_counterexample :
    (nanMapper 10 0 RobotState.BACKING_UP).backup_time =
      (emptyMapper RobotState.BACKING_UP).backup_time ∧
    (nanMapper 10 0 RobotState.BACKING_UP).state = RobotState.BACKING_UP ∧
    (emptyMapper RobotState.BACKING_UP).state = RobotState.BACKING_UP ∧
    control_loop (nanMapper 10 0 RobotState.BACKING_UP) 0 =
      .ok ({ lidar_data := some (nanScan 10), backup_time := 0.1,
             state := RobotState.BACKING_UP },
           some { linear := -0.1, angular := 0 }) ∧
    control_loop (emptyMapper RobotState.BACKING_UP) 0 =
      .error "ZeroDivisionError" := by
  refine ⟨rfl, rfl, rfl, ?_, ?_⟩
  · rw [cl_backing 0 (m := nanMapper 10 0 RobotState.BACKING_UP) rfl
      (by simp [nanScan]) rfl]
    norm_num [nanMapper, nanScan, backup_speed]
  · simp [control_loop, get_safe_directions, emptyMapper, emptyScan]

/-- C10, amended. While in `BACKING_UP` on a nonempty scan, the emitted
command and the FSM successor depend only on the phase timer, never on the
scan contents or the random draw: any scan with at least one sample yields
the command `{linear = -0.1, angular = 0}` and the successor determined by
`t + 0.1 ≥ 1.5` alone (an empty scan instead raises before the FSM runs,
so the obstacle thresholds are still never consulted in `BACKING_UP`). -/
theorem C10_backing_scan_independent (t r : ℚ) (scan : LaserScan)
    (hn : scan.ranges.length ≠ 0) :
    control_loop { lidar_data := some scan, backup_time := t,
                   state := RobotState.BACKING_UP } r =
      .ok ({ lidar_data := some scan, backup_time := t + 0.1,
             state := if t + 0.1 ≥ 1.5 then RobotState.TURNING
                      else RobotState.BACKING_UP },
           some { linear := -0.1, angular := 0 }) := by
  rw [cl_backing r rfl hn rfl]
  norm_num [backup_speed]

/-- C10, witness: the scan-independence equation at timer `0` on the
one-sample NaN scan. -/
theorem C10_backing_scan_independent_witness :
    (nanScan 10).ranges.length ≠ 0 ∧
    control_loop { lidar_data := some (nanScan 10), backup_time := 0,
                   state := RobotState.BACKING_UP } 0 =
      .ok ({ lidar_data := some (nanScan 10), backup_time := 0 + 0.1,
             state := if (0 : ℚ) + 0.1 ≥ 1.5 then RobotState.TURNING
                      else RobotState.BACKING_UP },
           some { linear := -0.1, angular := 0 }) :=
  ⟨by simp [nanScan],
   C10_backing_scan_independent 0 0 (nanScan 10) (by simp [nanScan])⟩
